import Mathlib

/-!
Shallow embedding of the worktree-registry scripts:
`worktree_create.py`, `worktree_merge.py`, `worktree_cleanup.py`,
`worktree_check_pr_status.py`, `worktree_poll_pr.py`.

The registry is a JSON object keyed by worktree id; it is modelled as an
association list in insertion order, with Python dict assignment semantics
(replace in place when the key is present, append when it is absent).
External subprocesses (git, gh, docker-compose) are modelled by explicit
outcome records, and the git commands a run would issue are collected in a
trace list.
-/

/-- PR sub-record stored by the registry (number and title). -/
structure PRInfo where
  number : Nat
  title : String
deriving DecidableEq, Repr

/-- One registry entry, as written by `create_worktree` in
`worktree_create.py` (lines 114-122), plus the optional `pr` sub-record
read by `worktree_check_pr_status.py`. -/
structure WorktreeRecord where
  id : String
  feature_name : String
  path : String
  branch : String
  base_branch : String
  created : String
  status : String
  pr : Option PRInfo
deriving DecidableEq, Repr

/-- The registry JSON object: keys in insertion order. -/
abbrev Registry := List (String × WorktreeRecord)

/-- Python `registry[worktree_id]` read (`worktree_id in registry` plus
indexing): the value at the key, if present. -/
def dictGet : Registry → String → Option WorktreeRecord
  | [], _ => none
  | (k, v) :: rest, key => if k = key then some v else dictGet rest key

/-- Python `registry[worktree_id] = info` assignment: replace in place when
the key is present, append at the end when it is absent. -/
def dictSet : Registry → String → WorktreeRecord → Registry
  | [], key, v => [(key, v)]
  | (k, w) :: rest, key, v =>
      if k = key then (key, v) :: rest else (k, w) :: dictSet rest key v

/-- Python format `f"{n:02d}"`: decimal, left-padded with zeros to a minimum
width of two. -/
def pad2 (n : Nat) : String :=
  if n < 10 then "0" ++ Nat.repr n else Nat.repr n

/-- `generate_worktree_id` (`worktree_create.py` lines 64-67):
`f"worktree-{len(registry) + 1:02d}"`. -/
def generate_worktree_id (registry : Registry) : String :=
  "worktree-" ++ pad2 (registry.length + 1)

/-- `feature_name.replace('-', '').replace('_', '')`
(`worktree_create.py` line 147): drop every hyphen and underscore. -/
def strip_separators (l : List Char) : List Char :=
  l.filter (fun c => !(c == '-' || c == '_'))

/-- Python `str.isalnum()` restricted to the ASCII alphanumerics the scripts
deal in: true iff the string is nonempty and every character is
alphanumeric. -/
def py_isalnum (l : List Char) : Bool :=
  !l.isEmpty && l.all Char.isAlphanum

/-- The feature-name check of `worktree_create.py` line 147:
`feature_name.replace('-', '').replace('_', '').isalnum()`. -/
def validate_feature_name (name : String) : Bool :=
  py_isalnum (strip_separators name.data)

/-- A character the spec calls allowed: alphanumeric, hyphen or
underscore. -/
def allowed_char (c : Char) : Bool :=
  c.isAlphanum || c == '-' || c == '_'

/-- Environment of one `create_worktree` run: the detected current branch,
the parent directory of the repository root, the timestamp, and the outcomes
of the two fallible steps (target path already present; `git worktree add`
result). -/
structure CreateEnv where
  base_branch : String
  repo_parent : String
  now : String
  path_exists : Bool
  worktree_add_ok : Bool
deriving Repr

/-- The registry entry built by `create_worktree`
(`worktree_create.py` lines 111-122). -/
def new_worktree_info (env : CreateEnv) (name : String) (registry : Registry) :
    WorktreeRecord :=
  { id := generate_worktree_id registry
    feature_name := name
    path := env.repo_parent ++ "/worktrees/" ++ name
    branch := "feature/" ++ name
    base_branch := env.base_branch
    created := env.now
    status := "active"
    pr := none }

/-- `create_worktree` (`worktree_create.py` lines 69-135): returns the new
entry and the saved registry on success; on an existing path or a failed
`git worktree add` it returns `none` before the registry is touched. -/
def create_worktree (env : CreateEnv) (name : String) (registry : Registry) :
    Option WorktreeRecord × Registry :=
  if env.path_exists then (none, registry)
  else if env.worktree_add_ok = false then (none, registry)
  else
    let info := new_worktree_info env name registry
    (some info, dictSet registry info.id info)

/-- `main` of `worktree_create.py` (lines 137-166): validate the feature
name, run `create_worktree`, exit 0 on success and 1 otherwise. Returns the
exit code and the final registry file contents. -/
def create_main (env : CreateEnv) (name : String) (registry : Registry) :
    Nat × Registry :=
  if validate_feature_name name = false then (1, registry)
  else
    match create_worktree env name registry with
    | (some _, registry2) => (0, registry2)
    | (none, registry2) => (1, registry2)

/-- A git / gh / docker subprocess invocation, as issued by the merge and
cleanup scripts. -/
inductive GitCmd where
  | checkout (branch : String)
  | pull (branch : String)
  | mergeBranch (branch : String) (message : String)
  | push (branch : String)
  | dockerDown (path : String)
  | worktreeRemove (path : String)
  | branchDelete (branch : String)
  | remoteBranchDelete (branch : String)
deriving DecidableEq, Repr

/-- Outcomes of the four subprocesses run by `merge_worktree`
(`worktree_merge.py`): checkout of the base branch, pull, merge, push. -/
structure MergeOutcomes where
  checkout_ok : Bool
  pull_ok : Bool
  merge_ok : Bool
  push_ok : Bool
deriving Repr

/-- `merge_worktree` (`worktree_merge.py` lines 52-118): returns the exit
code, the final registry file contents, and the trace of git commands
issued. Checkout failure and merge failure exit 1 before the registry is
written; pull and push failures are printed warnings only; on a successful
merge the status becomes `merged` and the registry is saved. -/
def merge_worktree (o : MergeOutcomes) (worktree_id : String)
    (registry : Registry) : Nat × Registry × List GitCmd :=
  if registry.isEmpty then (1, registry, [])
  else
    match dictGet registry worktree_id with
    | none => (1, registry, [])
    | some info =>
        let t1 := [GitCmd.checkout info.base_branch]
        if o.checkout_ok = false then (1, registry, t1)
        else
          let t2 := t1 ++ [GitCmd.pull info.base_branch,
            GitCmd.mergeBranch info.branch
              ("Merge " ++ info.branch ++ " into " ++ info.base_branch)]
          if o.merge_ok = false then (1, registry, t2)
          else
            let t3 := t2 ++ [GitCmd.push info.base_branch]
            (0, dictSet registry worktree_id { info with status := "merged" }, t3)

/-- Outcomes of the best-effort sub-steps of `cleanup_worktree`
(`worktree_cleanup.py`): none of them affects control flow past a printed
warning. -/
structure CleanupOutcomes where
  path_exists : Bool
  has_docker_compose : Bool
  docker_down_ok : Bool
  worktree_remove_ok : Bool
  branch_delete_ok : Bool
  remote_delete_ok : Bool
  checkout_ok : Bool
deriving Repr

/-- `cleanup_worktree` (`worktree_cleanup.py` lines 78-154): returns the
exit code, the final registry file contents, and the trace of commands.
Every sub-step failure is a warning; when the id is found the run always
ends by setting the status to `cleaned_up` and saving. -/
def cleanup_worktree (o : CleanupOutcomes) (worktree_id : String)
    (registry : Registry) : Nat × Registry × List GitCmd :=
  if registry.isEmpty then (1, registry, [])
  else
    match dictGet registry worktree_id with
    | none => (1, registry, [])
    | some info =>
        let t0 := if o.path_exists && o.has_docker_compose
          then [GitCmd.dockerDown info.path] else []
        let t := t0 ++ [GitCmd.worktreeRemove info.path,
          GitCmd.branchDelete info.branch,
          GitCmd.remoteBranchDelete info.branch,
          GitCmd.checkout info.base_branch]
        (0, dictSet registry worktree_id { info with status := "cleaned_up" }, t)

/-- Result of the `gh pr view` query in `check_pr_status`
(`worktree_check_pr_status.py` lines 81-100): either a parsed state string
with the optional merge timestamp, or a failed subprocess. -/
inductive QueryResult where
  | ok (state : String) (mergedAt : Option String)
  | fail
deriving DecidableEq, Repr

/-- `check_pr_status` (`worktree_check_pr_status.py` lines 50-100): returns
the `(state, merged_at)` pair together with a flag recording whether the
external query was performed. A missing registry, a missing record, or a
missing `pr` sub-record short-circuits to `"ERROR"` without querying. -/
def check_pr_status (registry : Registry) (worktree_id : String)
    (q : QueryResult) : (String × Option String) × Bool :=
  if registry.isEmpty then (("ERROR", none), false)
  else
    match dictGet registry worktree_id with
    | none => (("ERROR", none), false)
    | some info =>
        match info.pr with
        | none => (("ERROR", none), false)
        | some _ =>
            match q with
            | QueryResult.ok s m => ((s, m), true)
            | QueryResult.fail => (("ERROR", none), true)

/-- `main` of `worktree_check_pr_status.py` (lines 102-142): the exit code
(0 for MERGED, 1 for OPEN, 2 for CLOSED, any other state, a query failure,
or a missing record) together with the flag saying whether the external
query ran. -/
def check_pr_main (registry : Registry) (worktree_id : String)
    (q : QueryResult) : Nat × Bool :=
  let r := check_pr_status registry worktree_id q
  let state := r.1.1
  match dictGet registry worktree_id with
  | none => (2, r.2)
  | some _ =>
      if state = "MERGED" then (0, r.2)
      else if state = "OPEN" then (1, r.2)
      else if state = "CLOSED" then (2, r.2)
      else (2, r.2)

/-- The loop body of `poll_pr_status` (`worktree_poll_pr.py` lines 29-75),
driven by the list of exit codes the nested status checks will return:
0 runs cleanup and terminates (exit 0 when cleanup exits 0, else 1);
1 records a sleep of the configured length and recurs; any other code
terminates with exit 1 and no cleanup. Returns `none` when the supplied
codes run out with the loop still polling. The result is
(exit code, cleanup invoked, list of sleep durations in seconds). -/
def poll_go : List Nat → Nat → Nat → List Nat → Option (Nat × Bool × List Nat)
  | [], _, _, _ => none
  | c :: rest, cleanupExit, intervalSeconds, sleeps =>
      if c = 0 then
        some ((if cleanupExit = 0 then 0 else 1), true, sleeps)
      else if c = 1 then
        poll_go rest cleanupExit intervalSeconds (sleeps ++ [intervalSeconds])
      else
        some (1, false, sleeps)

/-- `poll_pr_status` (`worktree_poll_pr.py` lines 21-75):
`interval_seconds = interval_minutes * 60` (line 27), then the loop. -/
def poll_pr_status (checks : List Nat) (cleanupExit : Nat)
    (intervalMinutes : Nat) : Option (Nat × Bool × List Nat) :=
  poll_go checks cleanupExit (intervalMinutes * 60) []

/-- State of the registry file as seen by `load_registry`
(`worktree_create.py` lines 50-56): absent, present with invalid JSON, or
present with a valid registry object. -/
inductive RegistryFile where
  | missing
  | invalid
  | valid (registry : Registry)

/-- `load_registry` (`worktree_create.py` lines 50-56): an absent file
yields the empty mapping; `json.load` on an invalid file raises
`JSONDecodeError`, which no caller in the repository catches, modelled as
the error branch of `Except`. -/
def load_registry : RegistryFile → Except String Registry
  | RegistryFile.missing => Except.ok []
  | RegistryFile.invalid => Except.error "JSONDecodeError"
  | RegistryFile.valid registry => Except.ok registry

/-- Sample record as created by the create operation (no PR sub-record). -/
def recA : WorktreeRecord :=
  { id := "worktree-01", feature_name := "auth-ui",
    path := "../worktrees/auth-ui", branch := "feature/auth-ui",
    base_branch := "main", created := "2025-01-01T10:00:00",
    status := "active", pr := none }

/-- A second sample record, keyed `worktree-02`. -/
def recB : WorktreeRecord :=
  { id := "worktree-02", feature_name := "payments",
    path := "../worktrees/payments", branch := "feature/payments",
    base_branch := "main", created := "2025-01-01T11:00:00",
    status := "active", pr := none }

/-- `recA` with a PR sub-record attached. -/
def recPR : WorktreeRecord :=
  { recA with pr := some { number := 7, title := "Add auth ui" } }

/-- One-record registry without a PR sub-record. -/
def regA : Registry := [("worktree-01", recA)]

/-- One-record registry whose record carries a PR sub-record. -/
def regPR : Registry := [("worktree-01", recPR)]

/-- Two-record registry, as left by two successful creates. -/
def regTwo : Registry := [("worktree-01", recA), ("worktree-02", recB)]

/-- `regTwo` with the first record removed: a registry of size one whose
only key is `worktree-02`. -/
def regAfterRemoval : Registry := regTwo.eraseP (fun p => p.1 == "worktree-01")

/-- A create environment in which both fallible steps succeed. -/
def envOk : CreateEnv :=
  { base_branch := "main", repo_parent := "..",
    now := "2025-01-02T09:00:00", path_exists := false,
    worktree_add_ok := true }

theorem dictGet_isEmpty_false {registry : Registry} {k : String}
    {v : WorktreeRecord} (h : dictGet registry k = some v) :
    registry.isEmpty = false := by
  cases registry with
  | nil => simp [dictGet] at h
  | cons p rest => rfl

theorem dictGet_dictSet_self (registry : Registry) (k : String)
    (v : WorktreeRecord) : dictGet (dictSet registry k v) k = some v := by
  induction registry with
  | nil => simp [dictGet, dictSet]
  | cons p rest ih =>
      obtain ⟨k1, v1⟩ := p
      by_cases h : k1 = k
      · simp [dictSet, h, dictGet]
      · simp [dictSet, h, dictGet, ih]

theorem dictGet_dictSet_ne (registry : Registry) {k k2 : String}
    (v : WorktreeRecord) (h : k2 ≠ k) :
    dictGet (dictSet registry k v) k2 = dictGet registry k2 := by
  induction registry with
  | nil => simp [dictGet, dictSet, Ne.symm h]
  | cons p rest ih =>
      obtain ⟨k1, v1⟩ := p
      by_cases h1 : k1 = k
      · subst h1
        simp [dictSet, dictGet, Ne.symm h]
      · simp [dictSet, h1, dictGet, ih]

theorem dictSet_length_of_get {registry : Registry} {k : String}
    {v0 : WorktreeRecord} (h : dictGet registry k = some v0)
    (v : WorktreeRecord) : (dictSet registry k v).length = registry.length := by
  induction registry with
  | nil => simp [dictGet] at h
  | cons p rest ih =>
      obtain ⟨k1, v1⟩ := p
      by_cases h1 : k1 = k
      · simp [dictSet, h1]
      · simp [dictGet, h1] at h
        simp [dictSet, h1, ih h]

theorem strip_all_alnum (l : List Char) :
    (strip_separators l).all Char.isAlphanum = l.all allowed_char := by
  induction l with
  | nil => rfl
  | cons c t ih =>
      by_cases h1 : c = '-'
      · subst h1
        simpa [strip_separators, allowed_char, List.filter_cons]
          using ih
      · by_cases h2 : c = '_'
        · subst h2
          simpa [strip_separators, allowed_char, List.filter_cons]
            using ih
        · have hb1 : (c == '-') = false := by simp [h1]
          have hb2 : (c == '_') = false := by simp [h2]
          simp [strip_separators, allowed_char, List.filter_cons, hb1, hb2] at ih ⊢
          rw [ih]

theorem py_isalnum_strip (l : List Char) :
    py_isalnum (strip_separators l)
      = (l.all allowed_char && l.any Char.isAlphanum) := by
  induction l with
  | nil => rfl
  | cons c t ih =>
      by_cases h1 : c = '-'
      · subst h1
        simpa [strip_separators, allowed_char, List.filter_cons] using ih
      · by_cases h2 : c = '_'
        · subst h2
          simpa [strip_separators, allowed_char, List.filter_cons] using ih
        · have hb1 : (c == '-') = false := by simp [h1]
          have hb2 : (c == '_') = false := by simp [h2]
          have hall := strip_all_alnum t
          cases hc : c.isAlphanum with
          | false =>
              simp [strip_separators, allowed_char, List.filter_cons,
                hb1, hb2, hc, py_isalnum]
          | true =>
              simp [strip_separators, allowed_char, List.filter_cons,
                hb1, hb2, hc, py_isalnum] at hall ⊢
              exact hall

theorem strip_separators_nil_of_all : ∀ l : List Char,
    l.all (fun c => c == '-' || c == '_') = true → strip_separators l = [] := by
  intro l
  induction l with
  | nil => intro _; rfl
  | cons c t ih =>
      intro h
      simp [List.all_cons] at h
      obtain ⟨h1, h2⟩ := h
      have ht : strip_separators t = [] := ih (by simpa using h2)
      rcases h1 with h1 | h1 <;> subst h1 <;>
        simpa [strip_separators, List.filter_cons] using ht

theorem dictSet_length_of_none {registry : Registry} {k : String}
    (h : dictGet registry k = none) (v : WorktreeRecord) :
    (dictSet registry k v).length = registry.length + 1 := by
  induction registry with
  | nil => simp [dictSet]
  | cons p rest ih =>
      obtain ⟨k1, v1⟩ := p
      by_cases h1 : k1 = k
      · simp [dictGet, h1] at h
      · simp [dictGet, h1] at h
        simp [dictSet, h1, ih h]

/-- Claim C5: `generate_worktree_id` returns `worktree-NN` with `NN` equal
to the number of records plus one, zero-padded to two digits; it depends
only on the registry size (so two calls without an intervening save agree),
and on a registry from which a record has been removed the generated id
collides with a key already present. -/
theorem generate_id_spec :
    (∀ registry : Registry,
      generate_worktree_id registry
        = "worktree-" ++ pad2 (registry.length + 1)) ∧
    (∀ r1 r2 : Registry, r1.length = r2.length →
      generate_worktree_id r1 = generate_worktree_id r2) ∧
    generate_worktree_id ([] : Registry) = "worktree-01" ∧
    generate_worktree_id regAfterRemoval = "worktree-02" ∧
    (dictGet regAfterRemoval "worktree-02").isSome = true := by
  refine ⟨fun _ => rfl, fun r1 r2 h => ?_, by decide, by decide, by decide⟩
  simp [generate_worktree_id, h]

theorem generate_id_spec_witness :
    generate_worktree_id regAfterRemoval = generate_worktree_id regA :=
  generate_id_spec.2.1 regAfterRemoval regA (by decide)

/-- Claim C8 counterexample: the string consisting of a single hyphen
contains only allowed characters, yet the validation of
`worktree_create.py` line 147 rejects it, so acceptance is not equivalent
to containing only alphanumerics, hyphens and underscores. -/
theorem validate_allowed_chars_counterexample :
    ("-").data.all allowed_char = true ∧
    validate_feature_name "-" = false := by
  decide

/-- Claim C8 (amended): the create operation accepts a feature name exactly
when every character is an alphanumeric, hyphen or underscore AND at least
one character is alphanumeric (equivalently, the name with hyphens and
underscores removed is a nonempty alphanumeric string). -/
theorem validate_accepts_iff (name : String) :
    validate_feature_name name = true ↔
      (name.data.all allowed_char = true ∧
        name.data.any Char.isAlphanum = true) := by
  rw [validate_feature_name, py_isalnum_strip]
  exact Bool.and_eq_true_iff

/-- Claim C9: loading the registry yields the empty mapping without error
when the file is absent; an existing file with invalid contents makes the
load fail with a parse error that propagates (the error branch, with no
recovery to a fallback value); a valid file yields its contents. -/
theorem load_registry_cases :
    load_registry RegistryFile.missing = Except.ok [] ∧
    (∀ registry : Registry,
      load_registry (RegistryFile.valid registry) = Except.ok registry) ∧
    load_registry RegistryFile.invalid
      = Except.error "JSONDecodeError" :=
  ⟨rfl, fun _ => rfl, rfl⟩

/-- Claim C10: a feature name made only of hyphens and underscores (and in
particular the empty string) is rejected by the create operation with exit
code 1 and no registry change: stripping hyphens and underscores leaves the
empty string, which fails the alphanumeric test. -/
theorem reject_only_separators (env : CreateEnv) (registry : Registry)
    (s : String)
    (h : s.data.all (fun c => c == '-' || c == '_') = true) :
    create_main env s registry = (1, registry) := by
  have hv : validate_feature_name s = false := by
    rw [validate_feature_name, strip_separators_nil_of_all s.data h]
    rfl
  simp [create_main, hv]

theorem reject_only_separators_witness :
    create_main envOk "-_-" [] = (1, []) :=
  reject_only_separators envOk [] "-_-" (by decide)

/-- Claim C6: the polling loop maps a nested exit code 0 to invoking
cleanup and terminating (exit 0 when cleanup exits 0), code 1 to one sleep
of the configured length followed by a retry with no bound on the number
of retries, and any other code to a failure exit without cleanup; with
interval 1 minute and checks OPEN, OPEN, MERGED the loop sleeps exactly
twice for 60 seconds each, then invokes cleanup and exits 0. -/
theorem poll_loop_semantics :
    (∀ (rest : List Nat) (cleanupExit sec : Nat) (sleeps : List Nat),
      poll_go (0 :: rest) cleanupExit sec sleeps
        = some ((if cleanupExit = 0 then 0 else 1), true, sleeps)) ∧
    (∀ (rest : List Nat) (cleanupExit sec : Nat) (sleeps : List Nat),
      poll_go (1 :: rest) cleanupExit sec sleeps
        = poll_go rest cleanupExit sec (sleeps ++ [sec])) ∧
    (∀ (c : Nat) (rest : List Nat) (cleanupExit sec : Nat)
      (sleeps : List Nat), c ≠ 0 → c ≠ 1 →
      poll_go (c :: rest) cleanupExit sec sleeps = some (1, false, sleeps)) ∧
    (∀ (n cleanupExit m : Nat) (sleeps : List Nat),
      poll_go (List.replicate n 1) cleanupExit m sleeps = none) ∧
    poll_pr_status [1, 1, 0] 0 1 = some (0, true, [60, 60]) := by
  refine ⟨fun _ _ _ _ => rfl, fun _ _ _ _ => rfl, ?_, ?_, by decide⟩
  · intro c rest cleanupExit sec sleeps h0 h1
    simp [poll_go, h0, h1]
  · intro n
    induction n with
    | zero => intro _ _ _; rfl
    | succ k ih =>
        intro cleanupExit m sleeps
        simpa [List.replicate, poll_go] using ih cleanupExit m (sleeps ++ [m])

theorem poll_loop_semantics_witness :
    poll_go [2] 0 60 [] = some (1, false, []) :=
  poll_loop_semantics.2.2.1 2 [] 0 60 [] (by decide) (by decide)

/-- Claim C1: for a registry record found under the queried id, the
check-pr-status operation exits 0 when the queried state is MERGED, 1 when
it is OPEN, 2 when it is CLOSED, unrecognized, or the query subprocess
fails; when the record has no PR sub-record it exits 2 without performing
the external query. -/
theorem check_pr_status_exit_codes :
    ∀ (registry : Registry) (worktree_id : String) (info : WorktreeRecord),
      dictGet registry worktree_id = some info →
      ((info.pr = none → ∀ q : QueryResult,
        check_pr_main registry worktree_id q = (2, false)) ∧
       (∀ p : PRInfo, info.pr = some p →
         (∀ m, check_pr_main registry worktree_id
            (QueryResult.ok "MERGED" m) = (0, true)) ∧
         (∀ m, check_pr_main registry worktree_id
            (QueryResult.ok "OPEN" m) = (1, true)) ∧
         (∀ s m, s ≠ "MERGED" → s ≠ "OPEN" →
           check_pr_main registry worktree_id
            (QueryResult.ok s m) = (2, true)) ∧
         check_pr_main registry worktree_id QueryResult.fail = (2, true))) := by
  intro registry worktree_id info h
  have hne := dictGet_isEmpty_false h
  constructor
  · intro hpr q
    cases q <;> simp [check_pr_main, check_pr_status, hne, h, hpr]
  · intro p hpr
    refine ⟨fun m => ?_, fun m => ?_, fun s m hs ho => ?_, ?_⟩
    · simp [check_pr_main, check_pr_status, hne, h, hpr]
    · simp [check_pr_main, check_pr_status, hne, h, hpr]
    · simp [check_pr_main, check_pr_status, hne, h, hpr, hs, ho]
    · simp [check_pr_main, check_pr_status, hne, h, hpr]

theorem check_pr_status_exit_codes_witness :
    check_pr_main regPR "worktree-01" (QueryResult.ok "MERGED" none)
      = (0, true) ∧
    check_pr_main regPR "worktree-01" (QueryResult.ok "OPEN" none)
      = (1, true) ∧
    check_pr_main regPR "worktree-01" (QueryResult.ok "CLOSED" none)
      = (2, true) ∧
    check_pr_main regPR "worktree-01" QueryResult.fail = (2, true) ∧
    check_pr_main regA "worktree-01" (QueryResult.ok "MERGED" none)
      = (2, false) := by
  have h1 := check_pr_status_exit_codes regPR "worktree-01" recPR (by decide)
  have h2 := check_pr_status_exit_codes regA "worktree-01" recA (by decide)
  have hp := h1.2 { number := 7, title := "Add auth ui" } (by decide)
  exact ⟨hp.1 none, hp.2.1 none,
    hp.2.2.1 "CLOSED" none (by decide) (by decide), hp.2.2.2,
    h2.1 (by decide) (QueryResult.ok "MERGED" none)⟩

/-- Claim C2 counterexample: on a registry whose single key is
`worktree-02` (a record was removed earlier), the create operation
succeeds, yet the identifier it generates collides with the existing key:
the registry stays at one record and the record stored under `worktree-02`
is overwritten — no new record is appended and the registry is not left as
it was, contradicting the claim as stated. -/
theorem create_fresh_id_counterexample :
    (create_worktree envOk "payments2" regAfterRemoval).1.isSome = true ∧
    regAfterRemoval.length = 1 ∧
    (create_worktree envOk "payments2" regAfterRemoval).2.length = 1 ∧
    (dictGet regAfterRemoval "worktree-02").map WorktreeRecord.feature_name
      = some "payments" ∧
    (dictGet (create_worktree envOk "payments2" regAfterRemoval).2
      "worktree-02").map WorktreeRecord.feature_name = some "payments2" := by
  decide

/-- Claim C2 (amended): for every valid feature name and prior registry
state, create either writes exactly one record with status `active` at the
key `generate_worktree_id registry` and persists — appending a new record
whenever that key is not already present (a collision after a record
removal overwrites instead) — or, when the target path exists or the
branch-creation subprocess fails, exits non-zero leaving the registry
exactly as it was. -/
theorem create_registry_update :
    ∀ (env : CreateEnv) (name : String) (registry : Registry),
      validate_feature_name name = true →
      ((env.path_exists = true ∨ env.worktree_add_ok = false →
        create_main env name registry = (1, registry)) ∧
       (env.path_exists = false → env.worktree_add_ok = true →
        create_main env name registry
          = (0, dictSet registry (generate_worktree_id registry)
              (new_worktree_info env name registry)) ∧
        (new_worktree_info env name registry).status = "active" ∧
        (dictGet registry (generate_worktree_id registry) = none →
          (create_main env name registry).2.length
            = registry.length + 1))) := by
  intro env name registry hv
  constructor
  · intro hor
    have hc : create_worktree env name registry = (none, registry) := by
      rcases hor with hp | hw
      · simp [create_worktree, hp]
      · cases hp : env.path_exists <;> simp [create_worktree, hp, hw]
    simp [create_main, hv, hc]
  · intro hp hw
    have hc : create_worktree env name registry
        = (some (new_worktree_info env name registry),
           dictSet registry (generate_worktree_id registry)
             (new_worktree_info env name registry)) := by
      simp [create_worktree, hp, hw, new_worktree_info]
    refine ⟨by simp [create_main, hv, hc], rfl, fun hn => ?_⟩
    simp [create_main, hv, hc]
    exact dictSet_length_of_none hn _

theorem create_registry_update_witness :
    create_main envOk "auth-ui" []
      = (0, dictSet [] (generate_worktree_id [])
          (new_worktree_info envOk "auth-ui" [])) ∧
    (new_worktree_info envOk "auth-ui" []).status = "active" ∧
    (create_main envOk "auth-ui" []).2.length
      = ([] : Registry).length + 1 := by
  obtain ⟨h1, h2, h3⟩ :=
    (create_registry_update envOk "auth-ui" [] (by decide)).2 rfl rfl
  exact ⟨h1, h2, h3 (by decide)⟩

/-- A merge run in which every subprocess succeeds. -/
def oMergeOk : MergeOutcomes :=
  { checkout_ok := true, pull_ok := true, merge_ok := true, push_ok := true }

/-- A cleanup run in which every sub-step succeeds. -/
def oCleanupOk : CleanupOutcomes :=
  { path_exists := true, has_docker_compose := true, docker_down_ok := true,
    worktree_remove_ok := true, branch_delete_ok := true,
    remote_delete_ok := true, checkout_ok := true }

/-- A cleanup run in which every sub-step fails (as in a second run on an
already cleaned worktree). -/
def oCleanupFail : CleanupOutcomes :=
  { path_exists := false, has_docker_compose := false,
    docker_down_ok := false, worktree_remove_ok := false,
    branch_delete_ok := false, remote_delete_ok := false,
    checkout_ok := false }

/-- Claim C3: for a registry record found under the id, merge sets the
status to `merged` and persists exactly when the base-branch checkout and
the merge subprocess both succeed; a pull or push failure does not affect
the result (the outcome depends only on the checkout and merge flags);
a checkout or merge failure exits 1 with the registry unmutated, the
record keeping its `active` status. -/
theorem merge_status_update :
    ∀ (o : MergeOutcomes) (registry : Registry) (worktree_id : String)
      (info : WorktreeRecord),
      dictGet registry worktree_id = some info → info.status = "active" →
      ((o.checkout_ok = true → o.merge_ok = true →
        merge_worktree o worktree_id registry
          = (0, dictSet registry worktree_id { info with status := "merged" },
             [GitCmd.checkout info.base_branch, GitCmd.pull info.base_branch,
              GitCmd.mergeBranch info.branch
                ("Merge " ++ info.branch ++ " into " ++ info.base_branch),
              GitCmd.push info.base_branch])) ∧
       (o.checkout_ok = false ∨ o.merge_ok = false →
        (merge_worktree o worktree_id registry).1 = 1 ∧
        (merge_worktree o worktree_id registry).2.1 = registry ∧
        dictGet (merge_worktree o worktree_id registry).2.1 worktree_id
          = some info ∧ info.status = "active") ∧
       (∀ o2 : MergeOutcomes, o2.checkout_ok = o.checkout_ok →
        o2.merge_ok = o.merge_ok →
        merge_worktree o2 worktree_id registry
          = merge_worktree o worktree_id registry)) := by
  intro o registry worktree_id info h hact
  have hne := dictGet_isEmpty_false h
  refine ⟨fun hc hm => ?_, fun hor => ?_, fun o2 h1 h2 => ?_⟩
  · simp [merge_worktree, hne, h, hc, hm]
  · have : (merge_worktree o worktree_id registry).1 = 1 ∧
        (merge_worktree o worktree_id registry).2.1 = registry := by
      rcases hor with hc | hm
      · simp [merge_worktree, hne, h, hc]
      · cases hc : o.checkout_ok <;> simp [merge_worktree, hne, h, hc, hm]
    exact ⟨this.1, this.2, by rw [this.2]; exact ⟨h, hact⟩⟩
  · simp only [merge_worktree, h1, h2]

theorem merge_status_update_witness :
    merge_worktree oMergeOk "worktree-01" regA
      = (0, dictSet regA "worktree-01" { recA with status := "merged" },
         [GitCmd.checkout recA.base_branch, GitCmd.pull recA.base_branch,
          GitCmd.mergeBranch recA.branch
            ("Merge " ++ recA.branch ++ " into " ++ recA.base_branch),
          GitCmd.push recA.base_branch]) :=
  (merge_status_update oMergeOk regA "worktree-01" recA
    (by decide) (by decide)).1 rfl rfl

/-- Claim C4: whenever the registry contains the id, cleanup exits 0 and
finishes by persisting the record with status `cleaned_up`, whatever the
outcomes of its best-effort sub-steps; running it a second time — with any
sub-step outcomes, e.g. all failing — again exits 0 and leaves the status
`cleaned_up`, so cleanup is idempotent with respect to final status. -/
theorem cleanup_idempotent_status :
    ∀ (o1 o2 : CleanupOutcomes) (registry : Registry) (worktree_id : String)
      (info : WorktreeRecord),
      dictGet registry worktree_id = some info →
      ((cleanup_worktree o1 worktree_id registry).1 = 0 ∧
       dictGet (cleanup_worktree o1 worktree_id registry).2.1 worktree_id
         = some { info with status := "cleaned_up" } ∧
       (cleanup_worktree o2 worktree_id
         (cleanup_worktree o1 worktree_id registry).2.1).1 = 0 ∧
       dictGet (cleanup_worktree o2 worktree_id
         (cleanup_worktree o1 worktree_id registry).2.1).2.1 worktree_id
         = some { info with status := "cleaned_up" }) := by
  intro o1 o2 registry worktree_id info h
  have hne := dictGet_isEmpty_false h
  have h1 : (cleanup_worktree o1 worktree_id registry).2.1
      = dictSet registry worktree_id { info with status := "cleaned_up" } := by
    simp [cleanup_worktree, hne, h]
  have hget1 : dictGet (cleanup_worktree o1 worktree_id registry).2.1
      worktree_id = some { info with status := "cleaned_up" } := by
    rw [h1]; exact dictGet_dictSet_self registry worktree_id _
  have hne1 := dictGet_isEmpty_false hget1
  have h2 : (cleanup_worktree o2 worktree_id
      (cleanup_worktree o1 worktree_id registry).2.1).2.1
      = dictSet (cleanup_worktree o1 worktree_id registry).2.1 worktree_id
          { info with status := "cleaned_up" } := by
    generalize hr : (cleanup_worktree o1 worktree_id registry).2.1 = reg1
      at hget1 hne1
    simp [cleanup_worktree, hne1, hget1]
  have hexit2 : (cleanup_worktree o2 worktree_id
      (cleanup_worktree o1 worktree_id registry).2.1).1 = 0 := by
    generalize hr : (cleanup_worktree o1 worktree_id registry).2.1 = reg1
      at hget1 hne1
    simp [cleanup_worktree, hne1, hget1]
  refine ⟨by simp [cleanup_worktree, hne, h], hget1, hexit2, ?_⟩
  rw [h2]
  exact dictGet_dictSet_self _ worktree_id _

theorem cleanup_idempotent_status_witness :
    (cleanup_worktree oCleanupOk "worktree-01" regA).1 = 0 ∧
    dictGet (cleanup_worktree oCleanupFail "worktree-01"
      (cleanup_worktree oCleanupOk "worktree-01" regA).2.1).2.1 "worktree-01"
      = some { recA with status := "cleaned_up" } := by
  obtain ⟨a, _, _, d⟩ := cleanup_idempotent_status oCleanupOk oCleanupFail
    regA "worktree-01" recA (by decide)
  exact ⟨a, d⟩

/-- Claim C7: for a record found under the id, merge and cleanup change at
most the status field of that one record — every other field of it and
every other record are unchanged, and the registry keeps the same number
of records (nothing is ever removed); create only ever adds or overwrites
the generated key, so every key present before is present after; and both
merge and cleanup read the base branch back from the stored record for
their checkouts (merge checks it out first, cleanup returns to it), never
re-deriving it. -/
theorem registry_invariants :
    ∀ (registry : Registry) (worktree_id : String) (info : WorktreeRecord),
      dictGet registry worktree_id = some info →
      ((∀ o : MergeOutcomes,
        (∀ k, k ≠ worktree_id →
          dictGet (merge_worktree o worktree_id registry).2.1 k
            = dictGet registry k) ∧
        (∃ r, dictGet (merge_worktree o worktree_id registry).2.1 worktree_id
            = some r ∧
          r.id = info.id ∧ r.feature_name = info.feature_name ∧
          r.path = info.path ∧ r.branch = info.branch ∧
          r.base_branch = info.base_branch ∧ r.created = info.created ∧
          r.pr = info.pr) ∧
        (merge_worktree o worktree_id registry).2.1.length
          = registry.length ∧
        (merge_worktree o worktree_id registry).2.2.head?
          = some (GitCmd.checkout info.base_branch)) ∧
       (∀ o : CleanupOutcomes,
        (∀ k, k ≠ worktree_id →
          dictGet (cleanup_worktree o worktree_id registry).2.1 k
            = dictGet registry k) ∧
        (∃ r, dictGet (cleanup_worktree o worktree_id registry).2.1
            worktree_id = some r ∧
          r.id = info.id ∧ r.feature_name = info.feature_name ∧
          r.path = info.path ∧ r.branch = info.branch ∧
          r.base_branch = info.base_branch ∧ r.created = info.created ∧
          r.pr = info.pr) ∧
        (cleanup_worktree o worktree_id registry).2.1.length
          = registry.length ∧
        GitCmd.checkout info.base_branch
          ∈ (cleanup_worktree o worktree_id registry).2.2) ∧
       (∀ (env : CreateEnv) (name k : String),
        (dictGet registry k).isSome = true →
        (dictGet (create_worktree env name registry).2 k).isSome = true)) := by
  intro registry worktree_id info h
  have hne := dictGet_isEmpty_false h
  refine ⟨fun o => ?_, fun o => ?_, fun env name k hk => ?_⟩
  · cases hc : o.checkout_ok with
    | false =>
        have he : merge_worktree o worktree_id registry
            = (1, registry, [GitCmd.checkout info.base_branch]) := by
          simp [merge_worktree, hne, h, hc]
        rw [he]
        exact ⟨fun k hk => rfl,
          ⟨info, h, rfl, rfl, rfl, rfl, rfl, rfl, rfl⟩, rfl, rfl⟩
    | true =>
        cases hm : o.merge_ok with
        | false =>
            have he : merge_worktree o worktree_id registry
                = (1, registry,
                   [GitCmd.checkout info.base_branch,
                    GitCmd.pull info.base_branch,
                    GitCmd.mergeBranch info.branch
                      ("Merge " ++ info.branch ++ " into "
                        ++ info.base_branch)]) := by
              simp [merge_worktree, hne, h, hc, hm]
            rw [he]
            exact ⟨fun k hk => rfl,
              ⟨info, h, rfl, rfl, rfl, rfl, rfl, rfl, rfl⟩, rfl, rfl⟩
        | true =>
            have he : merge_worktree o worktree_id registry
                = (0, dictSet registry worktree_id
                    { info with status := "merged" },
                   [GitCmd.checkout info.base_branch,
                    GitCmd.pull info.base_branch,
                    GitCmd.mergeBranch info.branch
                      ("Merge " ++ info.branch ++ " into "
                        ++ info.base_branch),
                    GitCmd.push info.base_branch]) := by
              simp [merge_worktree, hne, h, hc, hm]
            rw [he]
            exact ⟨fun k hk => dictGet_dictSet_ne registry _ hk,
              ⟨{ info with status := "merged" },
                dictGet_dictSet_self registry worktree_id _,
                rfl, rfl, rfl, rfl, rfl, rfl, rfl⟩,
              dictSet_length_of_get h _, rfl⟩
  · cases hpd : (o.path_exists && o.has_docker_compose) with
    | false =>
        have he : cleanup_worktree o worktree_id registry
            = (0, dictSet registry worktree_id
                { info with status := "cleaned_up" },
               [GitCmd.worktreeRemove info.path,
                GitCmd.branchDelete info.branch,
                GitCmd.remoteBranchDelete info.branch,
                GitCmd.checkout info.base_branch]) := by
          simp [cleanup_worktree, hne, h, hpd]
        rw [he]
        refine ⟨fun k hk => dictGet_dictSet_ne registry _ hk,
          ⟨{ info with status := "cleaned_up" },
            dictGet_dictSet_self registry worktree_id _,
            rfl, rfl, rfl, rfl, rfl, rfl, rfl⟩,
          dictSet_length_of_get h _, by simp⟩
    | true =>
        have he : cleanup_worktree o worktree_id registry
            = (0, dictSet registry worktree_id
                { info with status := "cleaned_up" },
               [GitCmd.dockerDown info.path,
                GitCmd.worktreeRemove info.path,
                GitCmd.branchDelete info.branch,
                GitCmd.remoteBranchDelete info.branch,
                GitCmd.checkout info.base_branch]) := by
          simp [cleanup_worktree, hne, h, hpd]
        rw [he]
        refine ⟨fun k hk => dictGet_dictSet_ne registry _ hk,
          ⟨{ info with status := "cleaned_up" },
            dictGet_dictSet_self registry worktree_id _,
            rfl, rfl, rfl, rfl, rfl, rfl, rfl⟩,
          dictSet_length_of_get h _, by simp⟩
  · cases hp : env.path_exists with
    | true => simpa [create_worktree, hp] using hk
    | false =>
        cases hw : env.worktree_add_ok with
        | false => simpa [create_worktree, hp, hw] using hk
        | true =>
            have he : (create_worktree env name registry).2
                = dictSet registry (generate_worktree_id registry)
                    (new_worktree_info env name registry) := by
              simp [create_worktree, hp, hw, new_worktree_info]
            rw [he]
            by_cases hkk : k = generate_worktree_id registry
            · subst hkk
              rw [dictGet_dictSet_self]
              rfl
            · rw [dictGet_dictSet_ne registry _ hkk]
              exact hk

theorem registry_invariants_witness :
    dictGet (merge_worktree oMergeOk "worktree-01" regTwo).2.1 "worktree-02"
      = dictGet regTwo "worktree-02" ∧
    GitCmd.checkout recA.base_branch
      ∈ (cleanup_worktree oCleanupOk "worktree-01" regTwo).2.2 := by
  have h := registry_invariants regTwo "worktree-01" recA (by decide)
  exact ⟨(h.1 oMergeOk).1 "worktree-02" (by decide),
    (h.2.1 oCleanupOk).2.2.2⟩
